import Mathlib

/-!
Verification development for the ShowerOS provisioning script (install.py).

The script is a linear pipeline of setup stages run by `main`.  We embed it
shallowly: the filesystem is an explicit state (directories, files with
contents, permission modes, all keyed by path components); external shell
commands are an oracle `cmdOk : String → Bool` recording whether
`subprocess.run(..., check=True)` succeeds; each Python function becomes a
Lean function over this state, and `main` threads the state through the
stages with the script's fail-fast policy (sys.exit(1) on a required-stage
failure, the systemd-service stage being the one unchecked call).
-/

namespace Install

/-- A filesystem path, as its components (e.g. `web/static` is
`["web", "static"]`). -/
abbrev FPath := List String

/-- The modelled filesystem: existing directories, regular files with their
contents, and permission modes set by chmod. -/
structure FS where
  dirs : List FPath
  files : List (FPath × String)
  modes : List (FPath × Nat)
deriving DecidableEq

/-- The empty working directory. -/
def emptyFS : FS := ⟨[], [], []⟩

/-- Look up the value stored under key `p` in an association list. -/
def lookupKey {α : Type} (p : FPath) (l : List (FPath × α)) : Option α :=
  (l.find? (fun e => decide (e.1 = p))).map (fun e => e.2)

/-- Does directory `p` exist? -/
def dirExists (fs : FS) (p : FPath) : Bool := decide (p ∈ fs.dirs)

/-- Does regular file `p` exist? -/
def fileExists (fs : FS) (p : FPath) : Bool := (lookupKey p fs.files).isSome

/-- Python `Path(p).exists()`: true for a directory or a regular file. -/
def pathExists (fs : FS) (p : FPath) : Bool := dirExists fs p || fileExists fs p

/-- Content of file `p`, if present. -/
def lookupFile (fs : FS) (p : FPath) : Option String := lookupKey p fs.files

/-- Permission mode of `p`, if one was set. -/
def lookupMode (fs : FS) (p : FPath) : Option Nat := lookupKey p fs.modes

/-- Add a directory to the list if it is not already present. -/
def insertDir (ds : List FPath) (q : FPath) : List FPath :=
  if q ∈ ds then ds else ds ++ [q]

/-- The nonempty prefixes of a path: for `a/b/c` these are `a`, `a/b`,
`a/b/c` — the directories `mkdir(parents=True)` brings into existence. -/
def prefixesNE (p : FPath) : List FPath :=
  (List.range p.length).map (fun i => p.take (i + 1))

/-- Python `Path(p).mkdir(parents=True, exist_ok=True)`: create `p` and all
its ancestors, succeeding silently on those that already exist. -/
def mkdirP (fs : FS) (p : FPath) : FS :=
  { fs with dirs := (prefixesNE p).foldl insertDir fs.dirs }

/-- Python `open(p, "w").write(c)`: truncate and write, replacing the
previous content of `p` (the newest entry shadows older ones under
`lookupKey`) and leaving every other file alone. -/
def writeFile (fs : FS) (p : FPath) (c : String) : FS :=
  { fs with files := (p, c) :: fs.files }

/-- Python `Path(p).chmod(m)`: the newest mode entry shadows older ones. -/
def chmodPath (fs : FS) (p : FPath) (m : Nat) : FS :=
  { fs with modes := (p, m) :: fs.modes }

/-- Read-only facts about the host: the Python version, whether each shell
command would succeed, whether a write into the system-owned
`/etc/systemd/system` location is permitted (the only write the script
guards with a try/except PermissionError), the home directory and the
working directory. -/
structure Env where
  pyMajor : Nat
  pyMinor : Nat
  cmdOk : String → Bool
  canWriteSystem : Bool
  home : FPath
  cwd : String

/-- The shell commands issued by the script. -/
def aptUpdateCmd : String := "sudo apt update"

/-- Package list of install_system_dependencies. -/
def packages : List String :=
  ["python3-pip", "python3-venv", "ffmpeg", "mpv", "bluetooth", "bluez",
   "pulseaudio", "pulseaudio-module-bluetooth", "git", "curl", "wget"]

/-- The apt install command for one package. -/
def aptInstallCmd (p : String) : String := "sudo apt install -y " ++ p

/-- Command creating the virtual environment. -/
def venvCmd : String := "python3 -m venv venv"

/-- Command upgrading pip inside the venv. -/
def pipUpgradeCmd : String := "source venv/bin/activate && pip install --upgrade pip"

/-- Command installing requirements.txt inside the venv. -/
def pipInstallCmd : String := "source venv/bin/activate && pip install -r requirements.txt"

/-- Command enabling the bluetooth service. -/
def btEnableCmd : String := "sudo systemctl enable bluetooth"

/-- Command starting the bluetooth service. -/
def btStartCmd : String := "sudo systemctl start bluetooth"

/-- The inline Python test script of run_tests. -/
def testScript : String :=
  "\nimport sys\nsys.path.append(\x27.\x27)\n\ntry:\n    from utils.config_manager import ConfigManager\n    from core.water_control import WaterController\n    from core.audio_manager import AudioManager\n    from core.safety_monitor import SafetyMonitor\n    print(\"✅ All core modules imported successfully\")\nexcept ImportError as e:\n    print(f\"❌ Import error: {e}\")\n    sys.exit(1)\n"

/-- The full shell command run_tests executes. -/
def testCmd : String :=
  "source venv/bin/activate && python -c \"" ++ testScript ++ "\""

/-- run_command: runs a shell command with check=True; CalledProcessError is
caught and reported as False, so the result is exactly whether the command
succeeded. -/
def run_command (env : Env) (c : String) : Bool := env.cmdOk c

/-- check_python_version: fails iff sys.version_info < (3, 8) under Python's
lexicographic tuple comparison. -/
def check_python_version (env : Env) : Bool :=
  if env.pyMajor < 3 ∨ (env.pyMajor = 3 ∧ env.pyMinor < 8) then false else true

/-- install_system_dependencies: apt update, then each package in order,
returning False on the first failing command. -/
def install_system_dependencies (env : Env) : Bool :=
  if !(run_command env aptUpdateCmd) then false
  else packages.all (fun p => run_command env (aptInstallCmd p))

/-- create_virtual_environment: a no-op returning True when `venv` already
exists, otherwise runs the creation command.  The second component records
the commands invoked. -/
def create_virtual_environment (env : Env) (fs : FS) : Bool × List String :=
  if pathExists fs ["venv"] then (true, [])
  else (run_command env venvCmd, [venvCmd])

/-- install_python_dependencies: upgrade pip, then install requirements,
failing on the first failing command. -/
def install_python_dependencies (env : Env) : Bool :=
  if !(run_command env pipUpgradeCmd) then false
  else run_command env pipInstallCmd

/-- The six directories create_directories names. -/
def directories : List FPath :=
  [["logs"], ["config"], ["music"], ["web", "static"], ["web", "templates"],
   ["data"]]

/-- create_directories: mkdir(parents=True, exist_ok=True) on each named
directory, always returning True. -/
def create_directories (fs : FS) : Bool × FS :=
  (true, directories.foldl mkdirP fs)

/-- Log line printed when settings.yaml is absent. -/
def settingsLogLine : String := "📝 Creating default settings.yaml..."

/-- Log line printed when credentials.yaml is absent. -/
def credentialsLogLine : String := "📝 Creating default credentials.yaml..."

/-- setup_configuration: checks the two config paths with `Path.exists()`,
logs their absence, writes nothing, and returns True. -/
def setup_configuration (fs : FS) : Bool × FS × List String :=
  let out1 := if !(pathExists fs ["config", "settings.yaml"]) then [settingsLogLine] else []
  let out2 := if !(pathExists fs ["config", "credentials.yaml"]) then [credentialsLogLine] else []
  (true, fs, out1 ++ out2)

/-- setup_bluetooth: enable then start the bluetooth service. -/
def setup_bluetooth (env : Env) : Bool :=
  if !(run_command env btEnableCmd) then false
  else run_command env btStartCmd

/-- The PulseAudio configuration written by setup_audio. -/
def pulseConfig : String :=
  "\nload-module module-bluetooth-discover\nload-module module-bluetooth-policy\n"

/-- Parent directory of the PulseAudio config file. -/
def pulseDir (env : Env) : FPath := env.home ++ [".config", "pulse"]

/-- The PulseAudio config file path under the user's home. -/
def pulsePath (env : Env) : FPath := env.home ++ [".config", "pulse", "default.pa"]

/-- setup_audio: create ~/.config/pulse (with parents), overwrite
default.pa with the two module-load directives, return True. -/
def setup_audio (env : Env) (fs : FS) : Bool × FS :=
  let fs1 := mkdirP fs (pulseDir env)
  (true, writeFile fs1 (pulsePath env) pulseConfig)

/-- The systemd unit text, with the working directory substituted. -/
def serviceContent (wd : String) : String :=
  "[Unit]\nDescription=Smart Shower OS\nAfter=network.target bluetooth.service\n\n[Service]\nType=simple\nUser=pi\nWorkingDirectory=" ++ wd ++
  "\nEnvironment=PATH=" ++ wd ++ "/venv/bin\nExecStart=" ++ wd ++
  "/venv/bin/python " ++ wd ++
  "/main.py\nRestart=always\nRestartSec=10\n\n[Install]\nWantedBy=multi-user.target\n"

/-- Path of the systemd service descriptor. -/
def servicePath : FPath := ["etc", "systemd", "system", "smart-shower.service"]

/-- create_service_file: writes the unit file into the system-owned
location; a PermissionError is caught and reported as False with the
filesystem unchanged. -/
def create_service_file (env : Env) (fs : FS) : Bool × FS :=
  if env.canWriteSystem then
    (true, writeFile fs servicePath (serviceContent env.cwd))
  else (false, fs)

/-- setup_permissions: chmod 0o755 on main.py and on logs when each exists,
silently skipping an absent artifact, and always returning True. -/
def setup_permissions (fs : FS) : Bool × FS :=
  let fs1 := if pathExists fs ["main.py"] then chmodPath fs ["main.py"] 0o755 else fs
  let fs2 := if pathExists fs1 ["logs"] then chmodPath fs1 ["logs"] 0o755 else fs1
  (true, fs2)

/-- run_tests: runs the import smoke test inside the venv. -/
def run_tests (env : Env) : Bool := run_command env testCmd

/-- The stages of the pipeline, in the order main invokes them. -/
inductive Stage where
  | pythonCheck
  | sysDeps
  | venv
  | pyDeps
  | dirs
  | config
  | bluetooth
  | audio
  | service
  | perms
  | tests
deriving DecidableEq, Repr

/-- All stages in execution order. -/
def allStages : List Stage :=
  [Stage.pythonCheck, Stage.sysDeps, Stage.venv, Stage.pyDeps, Stage.dirs,
   Stage.config, Stage.bluetooth, Stage.audio, Stage.service, Stage.perms,
   Stage.tests]

/-- Position of a stage in the execution order. -/
def stageIndex : Stage → Nat
  | Stage.pythonCheck => 0
  | Stage.sysDeps => 1
  | Stage.venv => 2
  | Stage.pyDeps => 3
  | Stage.dirs => 4
  | Stage.config => 5
  | Stage.bluetooth => 6
  | Stage.audio => 7
  | Stage.service => 8
  | Stage.perms => 9
  | Stage.tests => 10

/-- The stages up to and including `k`. -/
def stagesUpTo (k : Stage) : List Stage := allStages.take (stageIndex k + 1)

/-- Result of one run of main: the process exit code, the executed stages
with each stage's boolean outcome in order, the required stage whose
failure aborted the run (if any), the final filesystem, and main's own
printed lines. -/
structure RunResult where
  exitCode : Nat
  results : List (Stage × Bool)
  failedStage : Option Stage
  fsOut : FS
  output : List String
deriving DecidableEq

/-- Failure line for a stage aborted by main. -/
def failLineSysDeps : String := "❌ Failed to install system dependencies"

/-- Failure line for the virtual-environment stage. -/
def failLineVenv : String := "❌ Failed to create virtual environment"

/-- Failure line for the Python-dependency stage. -/
def failLinePyDeps : String := "❌ Failed to install Python dependencies"

/-- Failure line for the directory stage. -/
def failLineDirs : String := "❌ Failed to create directories"

/-- Failure line for the configuration stage. -/
def failLineConfig : String := "❌ Failed to setup configuration"

/-- Failure line for the bluetooth stage. -/
def failLineBluetooth : String := "❌ Failed to setup Bluetooth"

/-- Failure line for the audio stage. -/
def failLineAudio : String := "❌ Failed to setup audio"

/-- Failure line for the permission stage. -/
def failLinePerms : String := "❌ Failed to setup permissions"

/-- Failure line for the test stage. -/
def failLineTests : String := "❌ Tests failed"

/-- Success banner printed by print_next_steps. -/
def successLine : String := "🎉 Installation completed successfully!"

/-- The stage pipeline of main, after the root-warning check: each required
stage's False aborts with exit code 1; create_service_file's result is
recorded but never checked. -/
def mainStages (env : Env) (fs0 : FS) : RunResult :=
  let b1 := check_python_version env
  if !b1 then
    ⟨1, [(Stage.pythonCheck, false)], some Stage.pythonCheck, fs0, []⟩
  else
  let b2 := install_system_dependencies env
  if !b2 then
    ⟨1, [(Stage.pythonCheck, true), (Stage.sysDeps, false)],
      some Stage.sysDeps, fs0, [failLineSysDeps]⟩
  else
  let b3 := (create_virtual_environment env fs0).1
  if !b3 then
    ⟨1, [(Stage.pythonCheck, true), (Stage.sysDeps, true), (Stage.venv, false)],
      some Stage.venv, fs0, [failLineVenv]⟩
  else
  let b4 := install_python_dependencies env
  if !b4 then
    ⟨1, [(Stage.pythonCheck, true), (Stage.sysDeps, true), (Stage.venv, true),
         (Stage.pyDeps, false)], some Stage.pyDeps, fs0, [failLinePyDeps]⟩
  else
  let r5 := create_directories fs0
  if !r5.1 then
    ⟨1, [(Stage.pythonCheck, true), (Stage.sysDeps, true), (Stage.venv, true),
         (Stage.pyDeps, true), (Stage.dirs, false)], some Stage.dirs, r5.2,
      [failLineDirs]⟩
  else
  let r6 := setup_configuration r5.2
  if !r6.1 then
    ⟨1, [(Stage.pythonCheck, true), (Stage.sysDeps, true), (Stage.venv, true),
         (Stage.pyDeps, true), (Stage.dirs, true), (Stage.config, false)],
      some Stage.config, r6.2.1, [failLineConfig]⟩
  else
  let b7 := setup_bluetooth env
  if !b7 then
    ⟨1, [(Stage.pythonCheck, true), (Stage.sysDeps, true), (Stage.venv, true),
         (Stage.pyDeps, true), (Stage.dirs, true), (Stage.config, true),
         (Stage.bluetooth, false)], some Stage.bluetooth, r6.2.1,
      [failLineBluetooth]⟩
  else
  let r8 := setup_audio env r6.2.1
  if !r8.1 then
    ⟨1, [(Stage.pythonCheck, true), (Stage.sysDeps, true), (Stage.venv, true),
         (Stage.pyDeps, true), (Stage.dirs, true), (Stage.config, true),
         (Stage.bluetooth, true), (Stage.audio, false)], some Stage.audio,
      r8.2, [failLineAudio]⟩
  else
  let r9 := create_service_file env r8.2
  let r10 := setup_permissions r9.2
  if !r10.1 then
    ⟨1, [(Stage.pythonCheck, true), (Stage.sysDeps, true), (Stage.venv, true),
         (Stage.pyDeps, true), (Stage.dirs, true), (Stage.config, true),
         (Stage.bluetooth, true), (Stage.audio, true), (Stage.service, r9.1),
         (Stage.perms, false)], some Stage.perms, r10.2, [failLinePerms]⟩
  else
  let b11 := run_tests env
  if !b11 then
    ⟨1, [(Stage.pythonCheck, true), (Stage.sysDeps, true), (Stage.venv, true),
         (Stage.pyDeps, true), (Stage.dirs, true), (Stage.config, true),
         (Stage.bluetooth, true), (Stage.audio, true), (Stage.service, r9.1),
         (Stage.perms, true), (Stage.tests, false)], some Stage.tests, r10.2,
      [failLineTests]⟩
  else
    ⟨0, [(Stage.pythonCheck, true), (Stage.sysDeps, true), (Stage.venv, true),
         (Stage.pyDeps, true), (Stage.dirs, true), (Stage.config, true),
         (Stage.bluetooth, true), (Stage.audio, true), (Stage.service, r9.1),
         (Stage.perms, true), (Stage.tests, true)], none, r10.2,
      [successLine]⟩

/-- Warning printed when the script runs as root. -/
def rootWarning : List String :=
  ["⚠️ Warning: Running as root. Consider running as a regular user."]

/-- main: if the effective uid is 0 a warning is printed (nothing else
happens), then the stage pipeline runs. -/
def main (euid : Nat) (env : Env) (fs0 : FS) : RunResult :=
  let warn := if euid == 0 then rootWarning else []
  let r := mainStages env fs0
  { r with output := warn ++ r.output }

/-- A host where every command succeeds and the system location is
writable. -/
def envAllOk : Env := ⟨3, 12, fun _ => true, true, ["home", "pi"], "/opt/shower"⟩

/-- A host where every command succeeds but the system-owned service
location is not writable (no sudo). -/
def envOptOnly : Env := ⟨3, 12, fun _ => true, false, ["home", "pi"], "/opt/shower"⟩

/-- A host where every shell command fails. -/
def envCmdFail : Env := ⟨3, 12, fun _ => false, true, ["home", "pi"], "/opt/shower"⟩

/-- A working directory where the venv directory already exists. -/
def fsVenv : FS := ⟨[["venv"]], [], []⟩

lemma lookupKey_cons {α : Type} (e : FPath × α) (l : List (FPath × α)) (q : FPath) :
    lookupKey q (e :: l) = if e.1 = q then some e.2 else lookupKey q l := by
  by_cases h : e.1 = q <;> simp [lookupKey, List.find?_cons, h]

lemma foldl_insertDir_extend (qs : List FPath) (ds : List FPath) :
    ∃ e, List.foldl insertDir ds qs = ds ++ e := by
  induction qs generalizing ds with
  | nil => exact ⟨[], by simp⟩
  | cons q qs ih =>
    obtain ⟨e, he⟩ := ih (insertDir ds q)
    by_cases h : q ∈ ds
    · exact ⟨e, by simpa [insertDir, h] using he⟩
    · refine ⟨[q] ++ e, ?_⟩
      simp only [List.foldl_cons]
      rw [he]
      simp [insertDir, h]

lemma mem_foldl_insertDir_of_mem (qs : List FPath) (ds : List FPath) (a : FPath)
    (h : a ∈ ds) : a ∈ List.foldl insertDir ds qs := by
  obtain ⟨e, he⟩ := foldl_insertDir_extend qs ds
  rw [he]
  exact List.mem_append_left e h

lemma mem_insertDir_self (ds : List FPath) (q : FPath) : q ∈ insertDir ds q := by
  by_cases h : q ∈ ds <;> simp [insertDir, h]

lemma mem_foldl_insertDir (qs : List FPath) (ds : List FPath) (q : FPath)
    (h : q ∈ qs) : q ∈ List.foldl insertDir ds qs := by
  induction qs generalizing ds with
  | nil => cases h
  | cons x xs ih =>
    rcases List.mem_cons.mp h with rfl | h2
    · exact mem_foldl_insertDir_of_mem xs (insertDir ds q) q (mem_insertDir_self ds q)
    · exact ih (insertDir ds x) h2

lemma self_mem_prefixesNE (p : FPath) (h : p ≠ []) : p ∈ prefixesNE p := by
  have hl : 0 < p.length := List.length_pos.mpr h
  refine List.mem_map.mpr ⟨p.length - 1, List.mem_range.mpr (by omega), ?_⟩
  rw [Nat.sub_add_cancel hl]
  exact List.take_length p

lemma mem_mkdirP_self (fs : FS) (p : FPath) (h : p ≠ []) : p ∈ (mkdirP fs p).dirs :=
  mem_foldl_insertDir (prefixesNE p) fs.dirs p (self_mem_prefixesNE p h)

lemma foldl_mkdirP_files (l : List FPath) (fs : FS) :
    (List.foldl mkdirP fs l).files = fs.files := by
  induction l generalizing fs with
  | nil => rfl
  | cons p l ih =>
    rw [List.foldl_cons, ih]
    rfl

lemma foldl_mkdirP_modes (l : List FPath) (fs : FS) :
    (List.foldl mkdirP fs l).modes = fs.modes := by
  induction l generalizing fs with
  | nil => rfl
  | cons p l ih =>
    rw [List.foldl_cons, ih]
    rfl

lemma foldl_mkdirP_dirs_extend (l : List FPath) (fs : FS) :
    ∃ e, (List.foldl mkdirP fs l).dirs = fs.dirs ++ e := by
  induction l generalizing fs with
  | nil => exact ⟨[], by simp⟩
  | cons p l ih =>
    obtain ⟨e1, h1⟩ := foldl_insertDir_extend (prefixesNE p) fs.dirs
    obtain ⟨e2, h2⟩ := ih (mkdirP fs p)
    refine ⟨e1 ++ e2, ?_⟩
    rw [List.foldl_cons, h2]
    simp [mkdirP, h1]

lemma pathExists_chmod (fs : FS) (p : FPath) (m : Nat) (q : FPath) :
    pathExists (chmodPath fs p m) q = pathExists fs q := rfl

lemma chmod_modes (fs : FS) (p : FPath) (m : Nat) :
    (chmodPath fs p m).modes = (p, m) :: fs.modes := rfl

lemma main_exitCode (u : Nat) (env : Env) (fs : FS) :
    (main u env fs).exitCode = (mainStages env fs).exitCode := rfl

lemma main_results (u : Nat) (env : Env) (fs : FS) :
    (main u env fs).results = (mainStages env fs).results := rfl

lemma main_failedStage (u : Nat) (env : Env) (fs : FS) :
    (main u env fs).failedStage = (mainStages env fs).failedStage := rfl

lemma main_fsOut (u : Nat) (env : Env) (fs : FS) :
    (main u env fs).fsOut = (mainStages env fs).fsOut := rfl

/-- C5: Runtime Isolator idempotency — when the `venv` directory already
exists, create_virtual_environment returns Success having invoked no
command; only when it is absent is the creation command run, and the stage
result is that command's outcome. -/
theorem venv_stage_idempotent (env : Env) (fs : FS) :
    (pathExists fs ["venv"] = true → create_virtual_environment env fs = (true, [])) ∧
    (pathExists fs ["venv"] = false →
      create_virtual_environment env fs = (run_command env venvCmd, [venvCmd])) := by
  constructor <;> intro h <;> simp [create_virtual_environment, h]

/-- C5 witness: on a filesystem that already has `venv`, the stage is a
pure no-op returning Success. -/
theorem venv_stage_idempotent_witness :
    pathExists fsVenv ["venv"] = true ∧
    create_virtual_environment envAllOk fsVenv = (true, []) :=
  ⟨by decide, (venv_stage_idempotent envAllOk fsVenv).1 (by decide)⟩

/-- C7: the Config Seeder only checks for the two configuration files and
logs their absence; it returns Success and leaves the filesystem exactly
as it found it. -/
theorem config_seeder_writes_nothing (fs : FS) :
    (setup_configuration fs).1 = true ∧
    (setup_configuration fs).2.1 = fs ∧
    (settingsLogLine ∈ (setup_configuration fs).2.2 ↔
      pathExists fs ["config", "settings.yaml"] = false) ∧
    (credentialsLogLine ∈ (setup_configuration fs).2.2 ↔
      pathExists fs ["config", "credentials.yaml"] = false) := by
  refine ⟨rfl, rfl, ?_, ?_⟩ <;>
    by_cases h1 : pathExists fs ["config", "settings.yaml"] <;>
    by_cases h2 : pathExists fs ["config", "credentials.yaml"] <;>
    simp [setup_configuration, h1, h2, settingsLogLine, credentialsLogLine]

/-- C8: setup_audio creates the parent directories of
`~/.config/pulse/default.pa` as needed, overwrites that file so that its
content is exactly the two module-load directives, and returns Success. -/
theorem audio_config_written (env : Env) (fs : FS) :
    (setup_audio env fs).1 = true ∧
    lookupFile (setup_audio env fs).2 (pulsePath env) = some pulseConfig ∧
    dirExists (setup_audio env fs).2 (pulseDir env) = true ∧
    pulseConfig =
      "\nload-module module-bluetooth-discover\nload-module module-bluetooth-policy\n" := by
  refine ⟨rfl, ?_, ?_, rfl⟩
  · simp [setup_audio, writeFile, lookupFile, lookupKey_cons]
  · have h : pulseDir env ∈ (mkdirP fs (pulseDir env)).dirs :=
      mem_mkdirP_self fs (pulseDir env) (by simp [pulseDir])
    simp only [setup_audio, dirExists, writeFile, decide_eq_true_eq]
    exact h

/-- C9: setup_permissions always returns Success; each of the two chmods is
performed exactly when its artifact exists (mode 0o755), and is silently
skipped, leaving the recorded mode unchanged, when it does not. -/
theorem permission_setter_defensive (fs : FS) :
    (setup_permissions fs).1 = true ∧
    lookupMode (setup_permissions fs).2 ["main.py"] =
      (if pathExists fs ["main.py"] then some 0o755 else lookupMode fs ["main.py"]) ∧
    lookupMode (setup_permissions fs).2 ["logs"] =
      (if pathExists fs ["logs"] then some 0o755 else lookupMode fs ["logs"]) := by
  have hne : ¬ ((["logs"] : FPath) = ["main.py"]) := by decide
  have hne2 : ¬ ((["main.py"] : FPath) = ["logs"]) := by decide
  by_cases h1 : pathExists fs ["main.py"] <;>
    by_cases h2 : pathExists fs ["logs"] <;>
    simp [setup_permissions, h1, h2, lookupMode, pathExists_chmod, chmod_modes,
      lookupKey_cons, hne, hne2]

/-- C4: error-propagation totality — the version check fails exactly on a
pre-3.8 Python; every command-driven stage succeeds exactly when each of
its commands does (a CalledProcessError surfaces as False, never as an
exception); the guarded system write fails exactly when privilege is
absent and then leaves the filesystem untouched; and the two sanctioned
exceptions — the optional service stage and the Permission Setter's
missing-artifact skip — return as the spec says. -/
theorem error_propagation_totality (env : Env) (fs : FS) :
    (check_python_version env = false ↔
      (env.pyMajor < 3 ∨ (env.pyMajor = 3 ∧ env.pyMinor < 8))) ∧
    (install_system_dependencies env = true ↔
      (run_command env aptUpdateCmd = true ∧
        ∀ p ∈ packages, run_command env (aptInstallCmd p) = true)) ∧
    (install_python_dependencies env = true ↔
      (run_command env pipUpgradeCmd = true ∧ run_command env pipInstallCmd = true)) ∧
    (setup_bluetooth env = true ↔
      (run_command env btEnableCmd = true ∧ run_command env btStartCmd = true)) ∧
    (run_tests env = true ↔ run_command env testCmd = true) ∧
    ((create_virtual_environment env fs).1 = true ↔
      (pathExists fs ["venv"] = true ∨ run_command env venvCmd = true)) ∧
    ((create_service_file env fs).1 = env.canWriteSystem) ∧
    ((create_service_file env fs).2 =
      if env.canWriteSystem then writeFile fs servicePath (serviceContent env.cwd) else fs) ∧
    ((setup_permissions fs).1 = true) ∧
    ((create_directories fs).1 = true) ∧
    ((setup_configuration fs).1 = true) ∧
    ((setup_audio env fs).1 = true) := by
  refine ⟨?_, ?_, ?_, ?_, ?_, ?_, ?_, ?_, rfl, rfl, rfl, rfl⟩
  · by_cases h : env.pyMajor < 3 ∨ (env.pyMajor = 3 ∧ env.pyMinor < 8) <;>
      simp [check_python_version, h]
  · by_cases h : run_command env aptUpdateCmd <;>
      simp [install_system_dependencies, h, List.all_eq_true]
  · by_cases h : run_command env pipUpgradeCmd <;>
      simp [install_python_dependencies, h]
  · by_cases h : run_command env btEnableCmd <;>
      simp [setup_bluetooth, h]
  · simp [run_tests]
  · by_cases h : pathExists fs ["venv"] <;>
      simp [create_virtual_environment, h]
  · by_cases h : env.canWriteSystem <;> simp [create_service_file, h]
  · by_cases h : env.canWriteSystem <;> simp [create_service_file, h]

/-- C6 counterexample: starting from an empty working directory,
create_directories also brings the parent directory `web` into existence
(mkdir with parents=True), so the directories that exist afterwards are
not exactly the six named ones. -/
theorem directories_not_exactly_six :
    ["web"] ∈ (create_directories emptyFS).2.dirs ∧
    ["web"] ∉ directories := by decide

/-- C6 amended: create_directories always returns Success; starting from an
empty working directory exactly the six named directories together with
the implicit parent `web` exist afterwards; pre-existing directories are
kept (the directory list is only extended) and no file or mode entry is
touched. -/
theorem directories_additive (fs : FS) :
    (create_directories fs).1 = true ∧
    (create_directories fs).2.files = fs.files ∧
    (create_directories fs).2.modes = fs.modes ∧
    (∃ e, (create_directories fs).2.dirs = fs.dirs ++ e) ∧
    (create_directories emptyFS).2.dirs =
      [["logs"], ["config"], ["music"], ["web"], ["web", "static"],
       ["web", "templates"], ["data"]] := by
  refine ⟨rfl, ?_, ?_, ?_, by decide⟩
  · exact foldl_mkdirP_files directories fs
  · exact foldl_mkdirP_modes directories fs
  · exact foldl_mkdirP_dirs_extend directories fs

lemma create_directories_fst (fs : FS) : (create_directories fs).1 = true := rfl

lemma setup_configuration_fst (fs : FS) : (setup_configuration fs).1 = true := rfl

lemma setup_audio_fst (env : Env) (fs : FS) : (setup_audio env fs).1 = true := rfl

lemma setup_permissions_fst (fs : FS) : (setup_permissions fs).1 = true := rfl

set_option maxHeartbeats 1000000 in
/-- C1: fail-fast ordering — whenever a run aborts on a required stage k,
that stage is not the Service Registrar, the process exits with code 1,
exactly the stages up to and including k executed, and no stage after k
ran. -/
theorem fail_fast_ordering (u : Nat) (env : Env) (fs : FS) (k : Stage)
    (h : (main u env fs).failedStage = some k) :
    k ≠ Stage.service ∧
    (main u env fs).exitCode = 1 ∧
    (main u env fs).results.map Prod.fst = stagesUpTo k ∧
    ∀ j ∈ (main u env fs).results.map Prod.fst, stageIndex j ≤ stageIndex k := by
  rw [main_failedStage] at h
  rw [main_exitCode, main_results]
  simp only [mainStages, create_directories_fst, setup_configuration_fst,
    setup_audio_fst, setup_permissions_fst, Bool.not_true, Bool.not_eq_true] at h ⊢
  split_ifs at h ⊢ <;> dsimp only at h ⊢
  all_goals
    first
    | exact Option.noConfusion h
    | (have hk := Option.some.inj h
       subst hk
       simp only [List.map_cons, List.map_nil]
       decide)

/-- C1 witness: on a host where every shell command fails, the run aborts
at the Dependency Installer with exit code 1, having executed only the
Python check and that stage. -/
theorem fail_fast_ordering_witness :
    (main 1000 envCmdFail emptyFS).failedStage = some Stage.sysDeps ∧
    (Stage.sysDeps ≠ Stage.service ∧
      (main 1000 envCmdFail emptyFS).exitCode = 1 ∧
      (main 1000 envCmdFail emptyFS).results.map Prod.fst = stagesUpTo Stage.sysDeps ∧
      ∀ j ∈ (main 1000 envCmdFail emptyFS).results.map Prod.fst,
        stageIndex j ≤ stageIndex Stage.sysDeps) :=
  ⟨by decide, fail_fast_ordering 1000 envCmdFail emptyFS Stage.sysDeps (by decide)⟩

set_option maxHeartbeats 1000000 in
/-- C2: optional-stage isolation — when every shell command succeeds and
the Python version is adequate but the system-owned service location is
not writable, the Service Registrar fails yet the run executes every
stage, reports no failed stage, and exits with code 0. -/
theorem optional_stage_isolation (u : Nat) (env : Env) (fs : FS)
    (hc : ∀ c, env.cmdOk c = true) (hw : env.canWriteSystem = false)
    (hp : check_python_version env = true) :
    (main u env fs).exitCode = 0 ∧
    (main u env fs).failedStage = none ∧
    (main u env fs).results.map Prod.fst = allStages ∧
    (Stage.service, false) ∈ (main u env fs).results := by
  rw [main_exitCode, main_failedStage, main_results]
  have h2 : install_system_dependencies env = true := by
    simp [install_system_dependencies, run_command, hc]
  have h3 : ∀ g : FS, (create_virtual_environment env g).1 = true := by
    intro g
    by_cases hg : pathExists g ["venv"] <;>
      simp [create_virtual_environment, run_command, hc, hg]
  have h4 : install_python_dependencies env = true := by
    simp [install_python_dependencies, run_command, hc]
  have h7 : setup_bluetooth env = true := by
    simp [setup_bluetooth, run_command, hc]
  have h9 : ∀ g : FS, (create_service_file env g).1 = false := by
    intro g
    simp [create_service_file, hw]
  have h11 : run_tests env = true := by
    simp [run_tests, run_command, hc]
  simp [mainStages, hp, h2, h3, h4, h7, h9, h11, create_directories_fst,
    setup_configuration_fst, setup_audio_fst, setup_permissions_fst, allStages]

/-- C2 witness: a concrete unprivileged host — all commands succeed, the
service write is denied — still finishes all stages with exit code 0. -/
theorem optional_stage_isolation_witness :
    (∀ c, envOptOnly.cmdOk c = true) ∧ envOptOnly.canWriteSystem = false ∧
    check_python_version envOptOnly = true ∧
    ((main 1000 envOptOnly emptyFS).exitCode = 0 ∧
      (main 1000 envOptOnly emptyFS).failedStage = none ∧
      (main 1000 envOptOnly emptyFS).results.map Prod.fst = allStages ∧
      (Stage.service, false) ∈ (main 1000 envOptOnly emptyFS).results) :=
  ⟨fun _ => rfl, rfl, by decide,
    optional_stage_isolation 1000 envOptOnly emptyFS (fun _ => rfl) rfl (by decide)⟩

set_option maxHeartbeats 1000000 in
/-- C3: exit codes — a run exits with code 0 exactly when no required
stage failed, equivalently exactly when every stage executed and every
stage other than the Service Registrar reported Success; the only other
possible exit code is 1. -/
theorem exit_codes (u : Nat) (env : Env) (fs : FS) :
    ((main u env fs).exitCode = 0 ↔ (main u env fs).failedStage = none) ∧
    ((main u env fs).exitCode = 0 ↔
      ((main u env fs).results.map Prod.fst = allStages ∧
        ∀ p ∈ (main u env fs).results, p.1 ≠ Stage.service → p.2 = true)) ∧
    ((main u env fs).exitCode = 0 ∨ (main u env fs).exitCode = 1) := by
  rw [main_exitCode, main_failedStage, main_results]
  simp only [mainStages, create_directories_fst, setup_configuration_fst,
    setup_audio_fst, setup_permissions_fst, Bool.not_true, Bool.not_eq_true]
  split_ifs <;> simp [allStages]

set_option maxHeartbeats 1000000 in
/-- C10: the root-privilege check never aborts — the effective uid changes
nothing but the presence of the warning line in the output; exit code,
stage results, failed stage and final filesystem are identical for every
uid, and the pipeline always proceeds to the Python-version check as its
first stage. -/
theorem root_check_harmless (u v : Nat) (env : Env) (fs : FS) :
    (main u env fs).exitCode = (main v env fs).exitCode ∧
    (main u env fs).results = (main v env fs).results ∧
    (main u env fs).failedStage = (main v env fs).failedStage ∧
    (main u env fs).fsOut = (main v env fs).fsOut ∧
    (main u env fs).output =
      (if u == 0 then rootWarning else []) ++ (mainStages env fs).output ∧
    ((main u env fs).results.map Prod.fst).head? = some Stage.pythonCheck := by
  refine ⟨rfl, rfl, rfl, rfl, rfl, ?_⟩
  rw [main_results]
  simp only [mainStages, create_directories_fst, setup_configuration_fst,
    setup_audio_fst, setup_permissions_fst, Bool.not_true, Bool.not_eq_true]
  split_ifs <;> rfl

end Install
